import Mathlib

/-!
# Verification of the libxslt transformation core (transform.c)

A shallow embedding of the transformation core of `src/libxslt/transform.c`
(the early XSLT 1.0 engine).  Pointers into external libxml2 / XPath
structures are modelled by values and oracle parameters; every local control
path of the embedded functions (error `goto`s, early `return`s, the
save/restore idiom) is mirrored from the C source.  Logging calls have no
semantic effect and are modelled only where a claim mentions them.
-/

set_option autoImplicit false

namespace LibXslt

/-- Node kinds of the libxml2 tree (`xmlElementType`), restricted to the
kinds `transform.c` dispatches on. -/
inductive NodeKind where
  | element
  | text
  | cdata
  | comment
  | pi
  | document
  | htmlDocument
  | entityRef
  | entityDecl
deriving DecidableEq, Repr

/-- A source-tree node as consulted by the child walks of `transform.c`:
its kind, its (element) name and its textual content.  Children and parent
links are supplied at each call site, as the C walks receive them. -/
structure SrcNode where
  kind : NodeKind
  name : String
  content : String
deriving DecidableEq, Repr

/-- Modelled from the spec: `xsltIsBlank` lives in xsltutils.c, which is not
under src/; §4.3 of the spec: "A text node is ignorable blank when its
content is entirely XML whitespace."  (Stated over the character list of
the string.) -/
def xsltIsBlank (s : String) : Bool :=
  s.data.all fun c => c = ' ' || c = '\t' || c = '\n' || c = '\r'

/-- The `IS_BLANK_NODE` macro of transform.c (line 41). -/
def IS_BLANK_NODE (n : SrcNode) : Bool :=
  n.kind = NodeKind.text && xsltIsBlank n.content

/-! ## Whitespace stripping decisions (claim C4)

`ctxt->style->stripSpaces` is an `xmlHashTable` from element name to the
string "strip" or "preserve"; it is modelled as `String → Option String`.
-/

/-- The strip decision computed by `xsltDefaultProcessOneNode`
(transform.c lines 626-647): look up the parent element name; value
"strip" strips, "preserve" keeps; otherwise (absent or any other value,
`strip_spaces` still -1) the wildcard entry "*" is consulted and strips
exactly when it maps to "strip". -/
def defaultStripDecision (stripSpaces : String → Option String)
    (parentName : String) : Bool :=
  match stripSpaces parentName with
  | some val =>
    if val = "strip" then true
    else if val = "preserve" then false
    else
      match stripSpaces "*" with
      | some w => w = "strip"
      | none => false
  | none =>
    match stripSpaces "*" with
    | some w => w = "strip"
    | none => false

/-- The strip decision computed by `xsltApplyTemplates` when building the
implicit child list (transform.c lines 848-855): strip exactly when the
parent element name maps to "strip"; the wildcard entry is never
consulted there. -/
def applyTemplatesStripDecision (stripSpaces : String → Option String)
    (parentName : String) : Bool :=
  match stripSpaces parentName with
  | some val => val = "strip"
  | none => false

/-- The stripping policy exactly as the specification (§4.3) and claim C4
word it, defined from the spec text for comparison with the embedded
code: the parent lookup decides when it yields "strip" or "preserve";
when it yields no decision the wildcard "*" is consulted; the node is
stripped exactly when the resulting decision is strip. -/
def specStripPolicy (stripSpaces : String → Option String)
    (parentName : String) : Bool :=
  if stripSpaces parentName = some "strip" then true
  else if stripSpaces parentName = some "preserve" then false
  else stripSpaces "*" = some "strip"

/-! ## The default rule child walk (claims C4, C5)

`xsltDefaultProcessOneNode` (transform.c lines 588-682).  For a document or
element node the walk runs over its children.  The result-tree effects are
recorded as events; the surviving source children are returned, since
`delete` marks are unlinked and freed from the source tree.
-/

/-- Result-side events emitted by the default rule child walk. -/
inductive WalkOut where
  /-- `xsltProcessOneNode` recursion on an element or document child. -/
  | processed (n : SrcNode)
  /-- a text or CDATA child copied under the insertion point. -/
  | copied (n : SrcNode)
deriving DecidableEq, Repr

/-- The child loop of `xsltDefaultProcessOneNode` (transform.c lines
611-681).  `cache` is the `strip_spaces` local (-1 encoded as `none`): the
decision is computed at the first blank text child and reused for the
rest of the walk (all children share the same parent, so the cached value
equals the per-node decision).  The `node->parent != NULL` test always
succeeds here because the walked nodes are children of `parent`.
Returns the emitted events and the surviving source children: a node
marked `delete` is unlinked and freed. -/
def defaultProcessChildren (stripSpaces : Option (String → Option String))
    (parent : SrcNode) : List SrcNode → Option Bool → List WalkOut × List SrcNode
  | [], _ => ([], [])
  | n :: rest, cache =>
    match n.kind with
    | NodeKind.document | NodeKind.htmlDocument | NodeKind.element =>
      let (outs, surv) := defaultProcessChildren stripSpaces parent rest cache
      (WalkOut.processed n :: outs, n :: surv)
    | NodeKind.text =>
      match stripSpaces with
      | some m =>
        if IS_BLANK_NODE n then
          let sp := cache.getD (defaultStripDecision m parent.name)
          if sp then
            -- delete = node: unlink and free
            defaultProcessChildren stripSpaces parent rest (some sp)
          else
            let (outs, surv) := defaultProcessChildren stripSpaces parent rest (some sp)
            (WalkOut.copied n :: outs, n :: surv)
        else
          let (outs, surv) := defaultProcessChildren stripSpaces parent rest cache
          (WalkOut.copied n :: outs, n :: surv)
      | none =>
        let (outs, surv) := defaultProcessChildren stripSpaces parent rest cache
        (WalkOut.copied n :: outs, n :: surv)
    | NodeKind.cdata =>
      let (outs, surv) := defaultProcessChildren stripSpaces parent rest cache
      (WalkOut.copied n :: outs, n :: surv)
    | _ =>
      -- default branch: the debug text says "skipping node type", but the
      -- code sets delete = node, so the child is unlinked and freed
      defaultProcessChildren stripSpaces parent rest cache

/-- `xsltDefaultProcessOneNode` for a document or element source node:
dispatch into the child walk (transform.c lines 594-611). -/
def xsltDefaultProcessOneNode (stripSpaces : Option (String → Option String))
    (node : SrcNode) (children : List SrcNode) : List WalkOut × List SrcNode :=
  match node.kind with
  | NodeKind.document | NodeKind.htmlDocument | NodeKind.element =>
    defaultProcessChildren stripSpaces node children none
  | NodeKind.text => ([WalkOut.copied node], children)
  | _ => ([], children)

/-! ## The implicit child list of apply-templates (claims C4, C2) -/

/-- The child-list construction of `xsltApplyTemplates` when no `select`
attribute is present (transform.c lines 833-883).  Returns the built node
list and the surviving source children (here too a `delete` mark unlinks
and frees the child). -/
def applyTemplatesChildList (stripSpaces : Option (String → Option String))
    (parent : SrcNode) : List SrcNode → List SrcNode × List SrcNode
  | [] => ([], [])
  | n :: rest =>
    match n.kind with
    | NodeKind.text =>
      match stripSpaces with
      | some m =>
        if IS_BLANK_NODE n && applyTemplatesStripDecision m parent.name then
          -- delete = cur: unlink and free
          applyTemplatesChildList stripSpaces parent rest
        else
          let (l, surv) := applyTemplatesChildList stripSpaces parent rest
          (n :: l, n :: surv)
      | none =>
        let (l, surv) := applyTemplatesChildList stripSpaces parent rest
        (n :: l, n :: surv)
    | NodeKind.document | NodeKind.htmlDocument | NodeKind.element
    | NodeKind.cdata =>
      let (l, surv) := applyTemplatesChildList stripSpaces parent rest
      (n :: l, n :: surv)
    | _ =>
      -- default branch: delete = cur, the child is unlinked and freed
      applyTemplatesChildList stripSpaces parent rest

/-! ## Transform context and the iteration of apply-templates / for-each
(claims C2, C9)

The fields of `xsltTransformContext` and of the embedded
`xmlXPathContext` that these claims are about are merged into one record
(`contextSize` and `proximityPosition` live in `ctxt->xpathCtxt` in the C;
its lazy creation is modelled by the `xpathCtxtOk` oracle below).
-/

/-- The context fields of `xsltTransformContextPtr` (with the XPath context
fields `contextSize` / `proximityPosition` inlined) that
`xsltApplyTemplates` and `xsltForEach` read and write. -/
structure TransformCtxt where
  node : SrcNode
  nodeList : Option (List SrcNode)
  contextSize : Int
  proximityPosition : Int
deriving DecidableEq, Repr

/-- An `xmlXPathObject` as dispatched on by transform.c.  The numeric
payload is irrelevant to every claim and is omitted; a node-set payload is
its node table (`nodesetval` with a non-null table). -/
inductive XPathObj where
  | nodeset (nodes : List SrcNode)
  | boolean (b : Bool)
  | str (s : String)
  | number
deriving DecidableEq, Repr

/-- The per-node loop shared by `xsltApplyTemplates` (transform.c lines
905-909) and `xsltForEach` (lines 1253-1256): for index `i`, set
`ctxt->node` to the i-th table entry and `proximityPosition` to `i + 1`,
then run the per-node processing (`xsltProcessOneNode`, respectively
`xsltApplyOneTemplate`), abstracted as `body`.  Also returns the context
as it stood at each body invocation, so that per-iteration observations
can be stated. -/
def instrIterLoop (body : SrcNode → TransformCtxt → TransformCtxt) :
    List SrcNode → Int → TransformCtxt → TransformCtxt × List TransformCtxt
  | [], _, c => (c, [])
  | n :: rest, i, c =>
    let ci := { c with node := n, proximityPosition := i + 1 }
    let pr := instrIterLoop body rest (i + 1) (body n ci)
    (pr.1, ci :: pr.2)

/-- Outcome of one run of `xsltApplyTemplates` / `xsltForEach`.
`result = none` models a NULL-pointer dereference (the C crashes when the
select evaluation leaves `res == NULL`, since `list` then stays NULL and
`list->nodeNr` is read).  `iterList` is the (possibly sorted) node list the
loop ran over and `observed` the context at each iteration. -/
structure InstrRun where
  result : Option TransformCtxt
  iterList : List SrcNode
  observed : List TransformCtxt
deriving Repr

/-- The save / sort / iterate / restore block common to
`xsltApplyTemplates` (transform.c lines 890-912) and `xsltForEach` (lines
1238-1260) — the two blocks are textually identical in the C.  The old
`nodeList`, `contextSize` and `proximityPosition` are saved, the new list
and its length installed, leading `xsl:sort` children are handled
(`xsltSort` reorders the installed list in place, modelled by `sortFn`,
and when the list has more than one entry it leaves `ctxt->node` and
`proximityPosition` clobbered, modelled by the `sortNodeEff` /
`sortProxEff` oracles; it never touches `contextSize`), the loop runs,
and the three saved fields are restored.  `ctxt->node` is NOT restored,
as in the C.  `sortStageCtxt` is the context effect of the leading
`xsl:sort` handling: `xsltSort` rewrites `ctxt->node` and
`proximityPosition` only when the installed list has more than one entry
(below that it exits before touching them), and never `contextSize`. -/
def sortStageCtxt (sortNodeEff : SrcNode → SrcNode) (sortProxEff : Int → Int)
    (hasSorts : Bool) (list : List SrcNode) (c1 : TransformCtxt) :
    TransformCtxt :=
  if hasSorts && list.length > 1 then
    { c1 with node := sortNodeEff c1.node,
              proximityPosition := sortProxEff c1.proximityPosition }
  else c1

/-- The save / sort / iterate / restore block shared by the two iterating
instructions; see the comment above `sortStageCtxt`. -/
def instrSaveSortIterateRestore (body : SrcNode → TransformCtxt → TransformCtxt)
    (hasSorts : Bool) (sortFn : List SrcNode → List SrcNode)
    (sortNodeEff : SrcNode → SrcNode) (sortProxEff : Int → Int)
    (list : List SrcNode) (c : TransformCtxt) : InstrRun :=
  let list2 := if hasSorts then sortFn list else list
  let c2 := sortStageCtxt sortNodeEff sortProxEff hasSorts list
    { c with nodeList := some list, contextSize := (list.length : Int) }
  let pr := instrIterLoop body list2 0 c2
  let cr := { pr.1 with nodeList := c.nodeList, contextSize := c.contextSize,
                        proximityPosition := c.proximityPosition }
  ⟨some cr, list2, pr.2⟩

/-- `xsltApplyTemplates` (transform.c lines 775-923).  Oracles:
`xpathCtxtOk` / `parserOk` model the lazy `xmlXPathNewContext` and the
`xmlXPathNewParserContext` allocations (failure takes the `goto error`
path); `evalRes` is the object obtained from evaluating the `select`
expression (`none` models `valuePop` yielding NULL); `node` with
`children` is the current source node whose child list is built when no
`select` attribute is present; `body` is `xsltProcessOneNode`. -/
def xsltApplyTemplates (body : SrcNode → TransformCtxt → TransformCtxt)
    (hasSorts : Bool) (sortFn : List SrcNode → List SrcNode)
    (sortNodeEff : SrcNode → SrcNode) (sortProxEff : Int → Int)
    (stripSpaces : Option (String → Option String))
    (selectProp : Option String) (xpathCtxtOk parserOk : Bool)
    (evalRes : Option XPathObj) (node : SrcNode) (children : List SrcNode)
    (c : TransformCtxt) : InstrRun :=
  match selectProp with
  | some _ =>
    if !xpathCtxtOk then ⟨some c, [], []⟩
    else if !parserOk then ⟨some c, [], []⟩
    else
      match evalRes with
      | some (XPathObj.nodeset l) =>
        -- list = res->nodesetval; res->nodesetval = NULL
        instrSaveSortIterateRestore body hasSorts sortFn sortNodeEff sortProxEff l c
      | some _ =>
        -- "select didn't evaluate to a node list": goto error
        ⟨some c, [], []⟩
      | none =>
        -- list stays NULL; list->nodeNr dereferences NULL
        ⟨none, [], []⟩
  | none =>
    instrSaveSortIterateRestore body hasSorts sortFn sortNodeEff sortProxEff
      (applyTemplatesChildList stripSpaces node children).1 c

/-- `xsltForEach` (transform.c lines 1176-1269).  Same oracles as
`xsltApplyTemplates`; a missing `select` attribute reports "select is not
defined" and returns at once; there is no implicit child list. -/
def xsltForEach (body : SrcNode → TransformCtxt → TransformCtxt)
    (hasSorts : Bool) (sortFn : List SrcNode → List SrcNode)
    (sortNodeEff : SrcNode → SrcNode) (sortProxEff : Int → Int)
    (selectProp : Option String) (xpathCtxtOk parserOk : Bool)
    (evalRes : Option XPathObj) (c : TransformCtxt) : InstrRun :=
  match selectProp with
  | none => ⟨some c, [], []⟩
  | some _ =>
    if !xpathCtxtOk then ⟨some c, [], []⟩
    else if !parserOk then ⟨some c, [], []⟩
    else
      match evalRes with
      | some (XPathObj.nodeset l) =>
        instrSaveSortIterateRestore body hasSorts sortFn sortNodeEff sortProxEff l c
      | some _ => ⟨some c, [], []⟩
      | none =>
        -- list stays NULL and is dereferenced
        ⟨none, [], []⟩

/-! ## xsl:if (claim C7) -/

/-- `xsltIf` (transform.c lines 1095-1166), reduced to whether the body is
executed (`xsltApplyOneTemplate` invoked).  `testProp` is the `test`
attribute; `xpathCtxtOk` / `parserOk` model the two allocations; `evalRes`
is the object left by `xmlXPathEvalExpr` followed by
`xmlXPathBooleanFunction` (`none` models `valuePop` yielding NULL).
`doit` is initialised to 1 in the C, so a NULL result leaves `doit = 1`
and the body runs; a non-boolean result takes `goto error`. -/
def xsltIf (testProp : Option String) (xpathCtxtOk parserOk : Bool)
    (evalRes : Option XPathObj) : Bool :=
  match testProp with
  | none => false
  | some _ =>
    if !xpathCtxtOk then false
    else if !parserOk then false
    else
      match evalRes with
      | some (XPathObj.boolean b) => b
      | some _ => false
      | none => true

/-! ## xsl:attribute (claim C8) -/

/-- The result element under construction (`ctxt->insert`): its children
and its attribute list.  The namespace of a set attribute is irrelevant to
the claims and not tracked. -/
structure ResultElem where
  children : List SrcNode
  attrs : List (String × String)
deriving DecidableEq, Repr

/-- `xmlSetProp`: replace the value of an existing attribute of that name,
or append a new one. -/
def xmlSetProp (attrs : List (String × String)) (nm v : String) :
    List (String × String) :=
  if attrs.any fun p => p.1 = nm then
    attrs.map fun p => if p.1 = nm then (nm, v) else p
  else attrs ++ [(nm, v)]

/-- Outcome of `xsltAttribute`: the insertion point afterwards and whether
an error (or TODO marker) was logged. -/
structure AttributeRun where
  insert : Option ResultElem
  errorLogged : Bool
deriving DecidableEq, Repr

/-- `xsltAttribute` (transform.c lines 334-408).  Oracles: `nsProp` and
`nameProp` are the evaluated `namespace` and `name` attribute-value
templates; `qnameSplit` models `xmlSplitQName2` (yielding `(qualifier,
local)` when the name is prefixed); `nsBound` models the `xmlSearchNs`
lookup; `valueEval` is `xsltEvalTemplateString` on the body (NULL becomes
the empty value).  The C returns before touching anything when the
insertion point is NULL or already has children. -/
def xsltAttribute (insert : Option ResultElem) (nsProp nameProp : Option String)
    (qnameSplit : String → Option (String × String)) (nsBound : String → Bool)
    (valueEval : Option String) : AttributeRun :=
  match insert with
  | none => ⟨none, false⟩
  | some ins =>
    if ins.children ≠ [] then
      -- "xslt:attribute : node has already children"
      ⟨some ins, true⟩
    else
      match nsProp with
      | some _ =>
        -- TODO marker for xsl:attribute namespace; instruction skipped
        ⟨some ins, true⟩
      | none =>
        match nameProp with
        | none =>
          -- "xslt:attribute : name is missing"
          ⟨some ins, true⟩
        | some nm =>
          let split := qnameSplit nm
          let ncname := match split with
            | some (_, loc) => loc
            | none => nm
          if ncname = "xmlns" then
            -- "xslt:attribute : xmlns forbidden"
            ⟨some ins, true⟩
          else
            let unbound := match split with
              | some (q, _) => !nsBound q
              | none => false
            -- an unbound qualifier is logged but does not abort
            let v := valueEval.getD ""
            ⟨some { ins with attrs := xmlSetProp ins.attrs ncname v }, unbound⟩

/-! ## xsl:call-template (claim C6) -/

/-- A child of the `call-template` instruction as classified by the loop of
transform.c lines 735-753. -/
inductive CTChild where
  | withParam
  | otherXslt (nm : String)
  | nonXslt (nm : String)
deriving DecidableEq, Repr

/-- Outcome of `xsltCallTemplate`: whether `xsltApplyOneTemplate` was
invoked, whether the error path read the uninitialised local `cur` (the
"template not found" message formats `cur->name` before `cur` is ever
assigned, transform.c lines 730-734), and the with-param scope balance. -/
structure CallTemplateRun where
  applied : Bool
  uninitializedCurRead : Bool
  pushedParamScope : Bool
  poppedParamScope : Bool
deriving DecidableEq, Repr

/-- `xsltCallTemplate` (transform.c lines 692-765).  Oracles: `nameProp`
is the `name` attribute; `qnameSplit` models `xmlSplitQName2`; `nsBound`
the `xmlSearchNs` lookup; `templateFound` the `xsltFindTemplate` lookup by
local name.  When the template is not found, the error message reads the
uninitialised `cur` before `goto error`; the error label pops the
with-param scope only when one was pushed (and here none was). -/
def xsltCallTemplate (insertPresent : Bool) (nameProp : Option String)
    (qnameSplit : String → Option (String × String)) (_nsBound : String → Bool)
    (templateFound : String → Bool) (children : List CTChild) :
    CallTemplateRun :=
  if !insertPresent then ⟨false, false, false, false⟩
  else
    match nameProp with
    | none =>
      -- "xslt:call-template : name is missing": goto error, nothing pushed
      ⟨false, false, false, false⟩
    | some nm =>
      let ncname := match qnameSplit nm with
        | some (_, loc) => loc
        | none => nm
      if !templateFound ncname then
        -- "xslt:call-template: template %s not found\n", cur->name
        -- with cur still uninitialised; then goto error
        ⟨false, true, false, false⟩
      else
        let pushed := children.any fun ch => ch = CTChild.withParam
        -- with-param children push a scope lazily; other children are
        -- logged as misplaced; then xsltApplyOneTemplate runs and the
        -- error label pops the scope iff it was pushed
        ⟨true, false, pushed, pushed⟩

/-! ## The entry point xsltApplyStylesheet (claims C1, C10) -/

/-- Outcome of `xsltApplyStylesheet`:  whether a non-NULL result document
was returned, whether a transform context was ever allocated, whether a
result document was ever allocated, and whether an internal DTD subset was
attached to the result. -/
structure ApplyStylesheetRun where
  returned : Bool
  ctxtCreated : Bool
  resDocCreated : Bool
  intSubsetAttached : Bool
deriving DecidableEq, Repr

/-- `xsltApplyStylesheet` (transform.c lines 1312-1381).
`outputXmlCode` is the numeric value of the enum constant
`XSLT_OUTPUT_XML`; it is left as a parameter because xsltInternals.h is
not under src/.  The DOCTYPE decision at line 1363 is
`if ((ctxt->type = XSLT_OUTPUT_XML) && ...)`: an assignment, so the first
conjunct is the truth value of the constant itself, independent of the
output method.  `styleGiven` / `docGiven` model the NULL tests on the two
arguments, `ctxtAllocOk` / `docAllocOk` the context and result-document
allocations, `rootFound` the `xmlDocGetRootElement` lookup. -/
def xsltApplyStylesheet (outputXmlCode : Int)
    (styleGiven docGiven ctxtAllocOk docAllocOk : Bool)
    (method doctypePublic doctypeSystem : Option String)
    (rootFound : Bool) : ApplyStylesheetRun :=
  if !styleGiven || !docGiven then ⟨false, false, false, false⟩
  else if !ctxtAllocOk then ⟨false, false, false, false⟩
  else
    let methodOk : Bool :=
      match method with
      | none => true
      | some m => m = "xml" || m = "html" || m = "text"
    if !methodOk then
      -- "xsltApplyStylesheet: insupported method": goto error
      ⟨false, true, false, false⟩
    else if !docAllocOk then ⟨false, true, false, false⟩
    else
      -- processing runs, then line 1363:
      --     if ((ctxt->type = XSLT_OUTPUT_XML) &&
      --         ((style->doctypePublic != NULL) ||
      --          (style->doctypeSystem != NULL)))
      let attach := (outputXmlCode != 0)
        && (doctypePublic.isSome || doctypeSystem.isSome) && rootFound
      ⟨true, true, true, attach⟩

/-- The internal-subset condition exactly as claim C1 and spec §4.1 step 7
word it, defined from the spec text for comparison with the embedded
code: output method XML (or unspecified, which §4.1 step 3 makes XML) and
at least one declared DOCTYPE identifier. -/
def specDoctypeAttach (method doctypePublic doctypeSystem : Option String) :
    Bool :=
  (method = none || method = some "xml")
    && (doctypePublic.isSome || doctypeSystem.isSome)

/-! ## The template body walk of xsltApplyOneTemplate (claim C3)

`xsltApplyOneTemplate` (transform.c lines 933-1085) walks the stylesheet
body with an explicit cursor (`cur`) and a result-side insertion pointer
(`insert`), and lazily pushes one variable scope on the first
`xsl:variable` / `xsl:param` / `xsl:call-template` child, popped at line
1082-1084 — but not on the early `return` at line 954 taken when
`insert == NULL`.  For the push/pop balance only the shape of the walk
matters, so a result-tree node is represented by its depth above NULL
along the parent chain (`insert = 0` encodes NULL, `parent` is
predecessor, a freshly appended child is successor); the dispatched
instruction handlers do not touch the walk locals and the claim concerns
only this body's own scope, so their effects are not modelled here. -/

/-- The kind of a stylesheet body node as dispatched by the walk:
an XSLT-namespace element (`IS_XSLT_ELEM`), a literal result element, a
stylesheet text node, an entity declaration (blocking descent at line
1054), or any other kind (comment, PI, ... — no branch of the walk
handles those). -/
inductive SKind where
  | xsltInstr (nm : String)
  | literalElem
  | textNode
  | entityDeclNode
  | otherNode
deriving DecidableEq, Repr

/-- A stylesheet body tree. -/
inductive STree where
  | node (kind : SKind) (children : List STree)

/-- Kind accessor. -/
def STree.kind : STree → SKind
  | .node k _ => k

/-- The XSLT instruction names whose branch performs the lazy scope push
(transform.c lines 992-1009). -/
def isScopeKind (nm : String) : Bool :=
  nm = "variable" || nm = "param" || nm = "call-template"

/-- The descent guard of transform.c lines 1053-1054:
`cur->children != NULL && cur->children->type != XML_ENTITY_DECL`. -/
def descendGuard (cs : List STree) : Bool :=
  match cs with
  | [] => false
  | c :: _ => c.kind ≠ SKind.entityDeclNode

/-- The locals of the walk: `insert` (depth encoding, 0 = NULL), the
`copy` local (carried across iterations, as in the C), the
`has_variables` flag, counters of scope pushes and pops performed by this
invocation, and whether the early `return` of line 954 was taken. -/
structure WalkSt where
  insert : Nat
  copyVar : Option Nat
  hasVariables : Bool
  pushes : Nat
  pops : Nat
  aborted : Bool
deriving DecidableEq, Repr

mutual

/-- One iteration of the walk for the cursor standing on `t`
(transform.c lines 945-1060): the `insert == NULL` early return, then
dispatch by kind, then the descent rules.  XSLT elements jump to
`skip_children`; literal elements and text nodes set `copy` to a fresh
child of `insert`; all other kinds leave `copy` stale. -/
def walkNode (t : STree) (s : WalkSt) : WalkSt :=
  match t with
  | .node k cs =>
    if s.aborted then s
    else if s.insert = 0 then { s with aborted := true }
    else
      match k with
      | SKind.xsltInstr nm =>
        if isScopeKind nm && !s.hasVariables then
          { s with hasVariables := true, pushes := s.pushes + 1 }
        else s
      | SKind.literalElem =>
        walkDescend cs { s with copyVar := some (s.insert + 1) }
      | SKind.textNode =>
        walkDescend cs { s with copyVar := some (s.insert + 1) }
      | SKind.entityDeclNode => walkDescend cs s
      | SKind.otherNode => walkDescend cs s
termination_by (sizeOf t, 2)

/-- The descent of transform.c lines 1053-1059 followed by the matching
unwind step of lines 1067-1080: when the guard passes, the cursor moves
into the children with `insert = copy` if `copy` is non-NULL (`insert`
unchanged otherwise — the stale-`copy` case), and on unwinding back to
this level `insert = insert->parent` is taken exactly once. -/
def walkDescend (cs : List STree) (s : WalkSt) : WalkSt :=
  if descendGuard cs then
    let s2 := walkForest cs { s with insert := s.copyVar.getD s.insert }
    if s2.aborted then s2 else { s2 with insert := s2.insert - 1 }
  else s
termination_by (sizeOf cs, 1)

/-- The walk over a sibling list in document order. -/
def walkForest (l : List STree) (s : WalkSt) : WalkSt :=
  match l with
  | [] => s
  | t :: rest => walkForest rest (walkNode t s)
termination_by (sizeOf l, 0)

end

/-- `xsltApplyOneTemplate` (transform.c lines 933-1085) restricted to the
walk shape: run the body walk from the given insertion depth with
`has_variables = 0`, then — line 1082, reached only when the early
`return` of line 954 was not taken — pop the scope iff one was pushed. -/
def xsltApplyOneTemplate (list : List STree) (insert0 : Nat) : WalkSt :=
  let s1 := walkForest list
    { insert := insert0, copyVar := none, hasVariables := false,
      pushes := 0, pops := 0, aborted := false }
  if s1.aborted then s1
  else if s1.hasVariables then { s1 with pops := s1.pops + 1 }
  else s1

mutual

/-- The libxml2 tree shape of stylesheet bodies: nodes that the walk can
descend into without a fresh copy — kinds other than elements, text and
XSLT elements — have no children, or have an entity declaration as first
child (entity reference nodes point at their declaration), which blocks
the descent.  Children of XSLT elements are consumed by their handlers
and never walked, so they are unconstrained. -/
def wfTree (t : STree) : Bool :=
  match t with
  | .node k cs =>
    match k with
    | SKind.xsltInstr _ => true
    | SKind.literalElem => wfForest cs
    | SKind.textNode => wfForest cs
    | SKind.entityDeclNode => !descendGuard cs
    | SKind.otherNode => !descendGuard cs
termination_by sizeOf t

/-- `wfTree` over a sibling list. -/
def wfForest (l : List STree) : Bool :=
  match l with
  | [] => true
  | t :: rest => wfTree t && wfForest rest
termination_by sizeOf l

end

/-! # Theorems for the claims -/

/-- Claim C10: for every call with a NULL stylesheet or a NULL source
document, `xsltApplyStylesheet` returns NULL immediately, without creating
a transform context or a result document. -/
theorem c10_null_arguments_return_null :
    ∀ (v : Int) (styleGiven docGiven ctxtOk docOk : Bool)
      (method pub sys : Option String) (root : Bool),
      styleGiven = false ∨ docGiven = false →
      xsltApplyStylesheet v styleGiven docGiven ctxtOk docOk method pub sys root
        = ⟨false, false, false, false⟩ := by
  intro v sg dg cOk dOk method pub sys root h
  unfold xsltApplyStylesheet
  rcases h with h | h <;> subst h <;> simp

/-- Witness for C10: a NULL stylesheet argument at a concrete call. -/
theorem c10_witness :
    ((false = false ∨ true = false) ∧
      xsltApplyStylesheet 0 false true true true none none none true
        = ⟨false, false, false, false⟩) :=
  ⟨Or.inl rfl,
    c10_null_arguments_return_null 0 false true true true none none none true
      (Or.inl rfl)⟩

/-- Claim C1: the claim states that an internal subset is attached iff the
output method is XML and a DOCTYPE identifier is declared, and never for
html or text output.  The code's gate at transform.c line 1363 is the
assignment `ctxt->type = XSLT_OUTPUT_XML`, whose truth value is that of
the enum constant itself, independent of the output method: whatever the
numeric value of `XSLT_OUTPUT_XML`, there is an output method with a
declared system identifier on which the code's attach decision differs
from the claimed condition. -/
theorem c1_doctype_gate_ignores_output_method :
    ∀ v : Int, ∃ (method pub sys : Option String),
      (xsltApplyStylesheet v true true true true method pub sys
          true).intSubsetAttached
        ≠ specDoctypeAttach method pub sys := by
  intro v
  by_cases h : v = 0
  · refine ⟨some "xml", none, some "sys", ?_⟩
    subst h
    simp [xsltApplyStylesheet, specDoctypeAttach]
  · refine ⟨some "html", none, some "sys", ?_⟩
    simp [xsltApplyStylesheet, specDoctypeAttach, h]

/-- Claim C5: the claim states that child nodes of other kinds (comments,
processing instructions) are merely skipped by the default rule's child
walk, the source tree being changed only by blank stripping.  In the code
the `default:` branch sets `delete = node`, so at this concrete input — an
element with a comment child and a PI child, with no strip/preserve map —
both children are unlinked and freed from the source tree (and nothing is
emitted), where the claim requires both to survive. -/
theorem c5_default_rule_deletes_comment_and_pi_children :
    xsltDefaultProcessOneNode none ⟨NodeKind.element, "r", ""⟩
        [⟨NodeKind.comment, "", "c"⟩, ⟨NodeKind.pi, "tgt", "d"⟩]
      = (([] : List WalkOut), ([] : List SrcNode))
    ∧ (([] : List WalkOut), ([] : List SrcNode)) ≠ (([] : List WalkOut),
        [⟨NodeKind.comment, "", "c"⟩, ⟨NodeKind.pi, "tgt", "d"⟩]) := by
  exact ⟨rfl, by simp⟩

/-- Claim C4 counterexample: with a strip map holding only the wildcard
entry "*" → "strip", and an all-blank text child of an element named
"foo", the default rule's walk strips the node (it consults the wildcard)
while the apply-templates child-list build keeps it (it only looks up the
parent name) — the two sites do not apply the same policy, contradicting
the claim. -/
theorem c4_strip_sites_disagree :
    (xsltDefaultProcessOneNode
        (some fun nm => if nm = "*" then some "strip" else none)
        ⟨NodeKind.element, "foo", ""⟩ [⟨NodeKind.text, "", " "⟩]).2 = []
    ∧ (applyTemplatesChildList
        (some fun nm => if nm = "*" then some "strip" else none)
        ⟨NodeKind.element, "foo", ""⟩ [⟨NodeKind.text, "", " "⟩]).1
      = [⟨NodeKind.text, "", " "⟩] := by
  exact ⟨rfl, rfl⟩

/-- Claim C4 as amended: the default rule's strip site implements exactly
the claimed policy (parent-name lookup, wildcard fallback when that yields
no decision), while the apply-templates site strips exactly when the
parent name maps directly to "strip" and never consults the wildcard; the
two sites disagree precisely when the parent lookup is inconclusive and
the wildcard maps to "strip". -/
theorem c4_strip_policy_characterization :
    ∀ (m : String → Option String) (p : String),
      defaultStripDecision m p = specStripPolicy m p
      ∧ (applyTemplatesStripDecision m p = true ↔ m p = some "strip")
      ∧ (defaultStripDecision m p ≠ applyTemplatesStripDecision m p ↔
          (m p ≠ some "strip" ∧ m p ≠ some "preserve"
            ∧ m "*" = some "strip")) := by
  intro m p
  unfold defaultStripDecision applyTemplatesStripDecision specStripPolicy
  rcases hmp : m p with _ | v
  · rcases hw : m "*" with _ | w
    · simp [hmp, hw]
    · by_cases hws : w = "strip" <;> simp [hmp, hw, hws]
  · by_cases h1 : v = "strip"
    · simp [hmp, h1]
    · by_cases h2 : v = "preserve"
      · simp [hmp, h1, h2]
      · rcases hw : m "*" with _ | w
        · simp [hmp, h1, h2, hw]
        · by_cases hws : w = "strip" <;> simp [hmp, h1, h2, hws]

/-- Claim C6: the claim states that a `call-template` whose name matches no
template reports an error and returns cleanly without invoking
`xsltApplyOneTemplate`.  At this concrete input (name "nowhere", empty
template table) the code indeed never invokes `xsltApplyOneTemplate`, but
the error report formats `cur->name` while the local `cur` is still
uninitialised (transform.c line 732; `cur` is first assigned at line 735),
an undefined-behaviour read, so the clean error-and-return the claim
describes is not what the code does. -/
theorem c6_call_template_unknown_name_reads_uninitialized :
    xsltCallTemplate true (some "nowhere") (fun _ => none) (fun _ => false)
        (fun _ => false) []
      = ⟨false, true, false, false⟩ := rfl

/-- Claim C7 counterexample: when the evaluation of the `test` expression
leaves no result object (`valuePop` yields NULL), `doit` keeps its
initial value 1 and the body IS executed, although the result is not a
boolean-true — contradicting the claim that no output is produced when
evaluation produces no result. -/
theorem c7_if_null_result_executes_body :
    xsltIf (some "t") true true none = true
    ∧ (none : Option XPathObj) ≠ some (XPathObj.boolean true) :=
  ⟨rfl, by simp⟩

/-- Claim C7 as amended: with the `test` attribute present and both
allocations succeeding, the body is executed iff the evaluated result is
the boolean true or evaluation yields no result object at all (in which
case `doit` keeps its initial value 1); a result of any other kind
produces no output, and a missing `test` or failed allocation produces no
output. -/
theorem c7_if_execution_characterization :
    ∀ (testProp : Option String) (ok1 ok2 : Bool) (res : Option XPathObj),
      xsltIf testProp ok1 ok2 res =
        (testProp.isSome && ok1 && ok2 &&
          (res.isNone || res == some (XPathObj.boolean true))) := by
  intro tp ok1 ok2 res
  rcases res with _ | o
  · cases tp <;> cases ok1 <;> cases ok2 <;> rfl
  · rcases o with l | b | s | _
    · cases tp <;> cases ok1 <;> cases ok2 <;> rfl
    · cases tp <;> cases ok1 <;> cases ok2 <;> cases b <;> rfl
    · cases tp <;> cases ok1 <;> cases ok2 <;> rfl
    · cases tp <;> cases ok1 <;> cases ok2 <;> rfl

/-- Claim C8: an `xsl:attribute` instruction executed while the insertion
point already has children logs the error "node has already children" and
is skipped: the insertion point keeps exactly its children and attributes. -/
theorem c8_attribute_after_children_skipped :
    ∀ (ins : ResultElem) (nsProp nameProp : Option String)
      (qnameSplit : String → Option (String × String))
      (nsBound : String → Bool) (valueEval : Option String),
      ins.children ≠ [] →
      xsltAttribute (some ins) nsProp nameProp qnameSplit nsBound valueEval
        = ⟨some ins, true⟩ := by
  intro ins nsProp nameProp qnameSplit nsBound valueEval h
  simp [xsltAttribute, h]

/-- Witness for C8: a concrete insertion point that already has a text
child. -/
theorem c8_witness :
    (⟨[⟨NodeKind.text, "", "x"⟩], []⟩ : ResultElem).children ≠ [] ∧
    xsltAttribute (some ⟨[⟨NodeKind.text, "", "x"⟩], []⟩) none (some "a")
        (fun _ => none) (fun _ => false) (some "v")
      = ⟨some ⟨[⟨NodeKind.text, "", "x"⟩], []⟩, true⟩ :=
  ⟨by simp,
    c8_attribute_after_children_skipped ⟨[⟨NodeKind.text, "", "x"⟩], []⟩
      none (some "a") (fun _ => none) (fun _ => false) (some "v") (by simp)⟩

/-! ## Claims C2 and C9 -/

/-- The save/iterate/restore block hands back a context whose saved fields
are the entry values: the restore at the end of the block overwrites
`nodeList`, `contextSize` and `proximityPosition` with the values saved
before the list was installed. -/
theorem saveSortIterateRestore_restores
    (body : SrcNode → TransformCtxt → TransformCtxt) (hasSorts : Bool)
    (sortFn : List SrcNode → List SrcNode) (sortNodeEff : SrcNode → SrcNode)
    (sortProxEff : Int → Int) (list : List SrcNode) (c c2 : TransformCtxt)
    (h : (instrSaveSortIterateRestore body hasSorts sortFn sortNodeEff
        sortProxEff list c).result = some c2) :
    c2.nodeList = c.nodeList ∧ c2.contextSize = c.contextSize ∧
      c2.proximityPosition = c.proximityPosition := by
  simp only [instrSaveSortIterateRestore, Option.some.injEq] at h
  subst h
  exact ⟨rfl, rfl, rfl⟩

/-- Claim C2: on every exit of `xsltApplyTemplates` and `xsltForEach` —
normal completion as well as each local-error exit (missing select,
result not a node-set, allocation failure) — the context fields
`nodeList`, `contextSize` and `proximityPosition` equal their values at
entry, whatever the nested per-node processing does to them. -/
theorem c2_apply_templates_for_each_restore_context :
    (∀ (body : SrcNode → TransformCtxt → TransformCtxt) (hasSorts : Bool)
      (sortFn : List SrcNode → List SrcNode) (sortNodeEff : SrcNode → SrcNode)
      (sortProxEff : Int → Int) (stripSpaces : Option (String → Option String))
      (selectProp : Option String) (xpathCtxtOk parserOk : Bool)
      (evalRes : Option XPathObj) (node : SrcNode) (children : List SrcNode)
      (c c2 : TransformCtxt),
      (xsltApplyTemplates body hasSorts sortFn sortNodeEff sortProxEff
          stripSpaces selectProp xpathCtxtOk parserOk evalRes node children
          c).result = some c2 →
      c2.nodeList = c.nodeList ∧ c2.contextSize = c.contextSize ∧
        c2.proximityPosition = c.proximityPosition)
    ∧ (∀ (body : SrcNode → TransformCtxt → TransformCtxt) (hasSorts : Bool)
      (sortFn : List SrcNode → List SrcNode) (sortNodeEff : SrcNode → SrcNode)
      (sortProxEff : Int → Int) (selectProp : Option String)
      (xpathCtxtOk parserOk : Bool) (evalRes : Option XPathObj)
      (c c2 : TransformCtxt),
      (xsltForEach body hasSorts sortFn sortNodeEff sortProxEff selectProp
          xpathCtxtOk parserOk evalRes c).result = some c2 →
      c2.nodeList = c.nodeList ∧ c2.contextSize = c.contextSize ∧
        c2.proximityPosition = c.proximityPosition) := by
  constructor
  · intro body hasSorts sortFn sortNodeEff sortProxEff stripSpaces selectProp
      xpathCtxtOk parserOk evalRes node children c c2 h
    rcases selectProp with _ | s
    · exact saveSortIterateRestore_restores _ _ _ _ _ _ _ _ h
    · cases xpathCtxtOk with
      | false => cases h; exact ⟨rfl, rfl, rfl⟩
      | true =>
        cases parserOk with
        | false => cases h; exact ⟨rfl, rfl, rfl⟩
        | true =>
          rcases evalRes with _ | o
          · cases h
          · rcases o with l | b | str | _
            · exact saveSortIterateRestore_restores _ _ _ _ _ _ _ _ h
            · cases h; exact ⟨rfl, rfl, rfl⟩
            · cases h; exact ⟨rfl, rfl, rfl⟩
            · cases h; exact ⟨rfl, rfl, rfl⟩
  · intro body hasSorts sortFn sortNodeEff sortProxEff selectProp
      xpathCtxtOk parserOk evalRes c c2 h
    rcases selectProp with _ | s
    · cases h; exact ⟨rfl, rfl, rfl⟩
    · cases xpathCtxtOk with
      | false => cases h; exact ⟨rfl, rfl, rfl⟩
      | true =>
        cases parserOk with
        | false => cases h; exact ⟨rfl, rfl, rfl⟩
        | true =>
          rcases evalRes with _ | o
          · cases h
          · rcases o with l | b | str | _
            · exact saveSortIterateRestore_restores _ _ _ _ _ _ _ _ h
            · cases h; exact ⟨rfl, rfl, rfl⟩
            · cases h; exact ⟨rfl, rfl, rfl⟩
            · cases h; exact ⟨rfl, rfl, rfl⟩

/-- Witness for C2: concrete runs of both instructions (apply-templates
over the implicit child list of a childless element, for-each over a
one-node select result) together with their restored fields. -/
theorem c2_witness :
    ((xsltApplyTemplates (fun _ c => c) false id id id none none true true
        none ⟨NodeKind.element, "r", ""⟩ []
        ⟨⟨NodeKind.element, "r", ""⟩, none, 0, 0⟩).result
      = some ⟨⟨NodeKind.element, "r", ""⟩, none, 0, 0⟩
    ∧ ((⟨⟨NodeKind.element, "r", ""⟩, none, 0, 0⟩ : TransformCtxt).nodeList
          = (⟨⟨NodeKind.element, "r", ""⟩, none, 0, 0⟩ :
              TransformCtxt).nodeList
        ∧ (⟨⟨NodeKind.element, "r", ""⟩, none, 0, 0⟩ :
              TransformCtxt).contextSize
          = (⟨⟨NodeKind.element, "r", ""⟩, none, 0, 0⟩ :
              TransformCtxt).contextSize
        ∧ (⟨⟨NodeKind.element, "r", ""⟩, none, 0, 0⟩ :
              TransformCtxt).proximityPosition
          = (⟨⟨NodeKind.element, "r", ""⟩, none, 0, 0⟩ :
              TransformCtxt).proximityPosition))
    ∧ ((xsltForEach (fun _ c => c) false id id id (some "x") true true
        (some (XPathObj.nodeset [⟨NodeKind.text, "", "y"⟩]))
        ⟨⟨NodeKind.element, "r", ""⟩, none, 0, 0⟩).result
      = some ⟨⟨NodeKind.text, "", "y"⟩, none, 0, 0⟩
    ∧ ((⟨⟨NodeKind.text, "", "y"⟩, none, 0, 0⟩ : TransformCtxt).nodeList
          = (⟨⟨NodeKind.element, "r", ""⟩, none, 0, 0⟩ :
              TransformCtxt).nodeList
        ∧ (⟨⟨NodeKind.text, "", "y"⟩, none, 0, 0⟩ :
              TransformCtxt).contextSize
          = (⟨⟨NodeKind.element, "r", ""⟩, none, 0, 0⟩ :
              TransformCtxt).contextSize
        ∧ (⟨⟨NodeKind.text, "", "y"⟩, none, 0, 0⟩ :
              TransformCtxt).proximityPosition
          = (⟨⟨NodeKind.element, "r", ""⟩, none, 0, 0⟩ :
              TransformCtxt).proximityPosition)) :=
  ⟨⟨rfl, c2_apply_templates_for_each_restore_context.1 (fun _ c => c) false
      id id id none none true true none ⟨NodeKind.element, "r", ""⟩ []
      ⟨⟨NodeKind.element, "r", ""⟩, none, 0, 0⟩
      ⟨⟨NodeKind.element, "r", ""⟩, none, 0, 0⟩ rfl⟩,
    ⟨rfl, c2_apply_templates_for_each_restore_context.2 (fun _ c => c) false
      id id id (some "x") true true
      (some (XPathObj.nodeset [⟨NodeKind.text, "", "y"⟩]))
      ⟨⟨NodeKind.element, "r", ""⟩, none, 0, 0⟩
      ⟨⟨NodeKind.text, "", "y"⟩, none, 0, 0⟩ rfl⟩⟩

/-- Default values used by the positional `getD` accesses below. -/
def defaultCtxt : TransformCtxt :=
  ⟨⟨NodeKind.element, "", ""⟩, none, 0, 0⟩

/-- Default source node for positional `getD` accesses. -/
def defaultNode : SrcNode := ⟨NodeKind.element, "", ""⟩

/-- The per-iteration observations of the loop: their number, and for the
j-th body invocation the context fields it runs with.  Provided the body
leaves `contextSize` as it found it (the restoration invariant of the
nested instructions, claim C2), every iteration sees the `contextSize`
installed before the loop. -/
theorem instrIterLoop_observed (body : SrcNode → TransformCtxt → TransformCtxt)
    (hbody : ∀ n c0, (body n c0).contextSize = c0.contextSize) :
    ∀ (l : List SrcNode) (i : Int) (c : TransformCtxt),
      (instrIterLoop body l i c).2.length = l.length ∧
      ∀ j : Nat, j < l.length →
        ((instrIterLoop body l i c).2.getD j defaultCtxt).contextSize
            = c.contextSize
        ∧ ((instrIterLoop body l i c).2.getD j defaultCtxt).proximityPosition
            = i + j + 1
        ∧ ((instrIterLoop body l i c).2.getD j defaultCtxt).node
            = l.getD j defaultNode := by
  intro l
  induction l with
  | nil =>
    intro i c
    exact ⟨rfl, fun j hj => absurd hj (by simp)⟩
  | cons n rest ih =>
    intro i c
    have hstep : (instrIterLoop body (n :: rest) i c).2
        = { c with node := n, proximityPosition := i + 1 }
          :: (instrIterLoop body rest (i + 1)
              (body n { c with node := n, proximityPosition := i + 1 })).2 :=
      rfl
    constructor
    · rw [hstep]
      simp [(ih (i + 1) (body n
        { c with node := n, proximityPosition := i + 1 })).1]
    · intro j hj
      cases j with
      | zero =>
        rw [hstep]
        refine ⟨rfl, ?_, rfl⟩
        show (i + 1 : Int) = i + ((0 : Nat) : Int) + 1
        simp
      | succ j0 =>
        have hj0 : j0 < rest.length := Nat.lt_of_succ_lt_succ hj
        obtain ⟨h1, h2, h3⟩ := (ih (i + 1) (body n
          { c with node := n, proximityPosition := i + 1 })).2 j0 hj0
        rw [hstep]
        simp only [List.getD_cons_succ]
        refine ⟨?_, ?_, ?_⟩
        · rw [h1, hbody]
        · rw [h2]
          push_cast
          ring
        · rw [h3]

/-- The observation property claim C9 asserts of one instruction run: as
many observations as iterated nodes, and the j-th body invocation runs
with `contextSize` equal to the iterated list's length, `node` equal to
the j-th list node, and `proximityPosition` equal to j+1, hence within
[1, N]. -/
def iterObservationsOk (r : InstrRun) : Prop :=
  r.observed.length = r.iterList.length ∧
  ∀ j : Nat, j < r.iterList.length →
    (r.observed.getD j defaultCtxt).contextSize = (r.iterList.length : Int)
    ∧ (r.observed.getD j defaultCtxt).node = r.iterList.getD j defaultNode
    ∧ (r.observed.getD j defaultCtxt).proximityPosition = (j : Int) + 1
    ∧ 1 ≤ (r.observed.getD j defaultCtxt).proximityPosition
    ∧ (r.observed.getD j defaultCtxt).proximityPosition
        ≤ (r.iterList.length : Int)

/-- The sort stage never changes `contextSize` (as `xsltSort` does not). -/
theorem sortStageCtxt_contextSize (sortNodeEff : SrcNode → SrcNode)
    (sortProxEff : Int → Int) (hasSorts : Bool) (list : List SrcNode)
    (c1 : TransformCtxt) :
    (sortStageCtxt sortNodeEff sortProxEff hasSorts list c1).contextSize
      = c1.contextSize := by
  unfold sortStageCtxt
  split <;> rfl

/-- Observation property of a run whose observations come from the loop
started at position 0 in a context whose `contextSize` is the iterated
list's length. -/
theorem iterRunObservations (body : SrcNode → TransformCtxt → TransformCtxt)
    (hbody : ∀ n c0, (body n c0).contextSize = c0.contextSize)
    (res : Option TransformCtxt) (L2 : List SrcNode) (CS : TransformCtxt)
    (hcs : CS.contextSize = (L2.length : Int)) :
    iterObservationsOk ⟨res, L2, (instrIterLoop body L2 0 CS).2⟩ := by
  have key := instrIterLoop_observed body hbody L2 0 CS
  constructor
  · exact key.1
  · intro j hj
    have hj2 : j < L2.length := hj
    obtain ⟨h1, h2, h3⟩ := key.2 j hj2
    refine ⟨?_, h3, ?_, ?_, ?_⟩
    · show ((instrIterLoop body L2 0 CS).2.getD j defaultCtxt).contextSize
          = (L2.length : Int)
      rw [h1, hcs]
    · show ((instrIterLoop body L2 0 CS).2.getD j
            defaultCtxt).proximityPosition = (j : Int) + 1
      rw [h2]
      omega
    · show 1 ≤ ((instrIterLoop body L2 0 CS).2.getD j
            defaultCtxt).proximityPosition
      rw [h2]
      omega
    · show ((instrIterLoop body L2 0 CS).2.getD j
            defaultCtxt).proximityPosition ≤ (L2.length : Int)
      rw [h2]
      omega

/-- The save/sort/iterate block satisfies the observation property: the
`contextSize` installed before the loop is the pre-sort list length,
`xsltSort` reorders in place without changing the length (`sortFn`
length-preserving) and never touches `contextSize`, and the loop sets
`node` and `proximityPosition` afresh at each iteration. -/
theorem saveSortIterateRestore_observations
    (body : SrcNode → TransformCtxt → TransformCtxt) (hasSorts : Bool)
    (sortFn : List SrcNode → List SrcNode) (sortNodeEff : SrcNode → SrcNode)
    (sortProxEff : Int → Int)
    (hsort : ∀ l, (sortFn l).length = l.length)
    (hbody : ∀ n c0, (body n c0).contextSize = c0.contextSize)
    (list : List SrcNode) (c : TransformCtxt) :
    iterObservationsOk (instrSaveSortIterateRestore body hasSorts sortFn
      sortNodeEff sortProxEff list c) := by
  have hlen2 : (if hasSorts then sortFn list else list).length
      = list.length := by
    cases hasSorts <;> simp [hsort]
  have hcs : (sortStageCtxt sortNodeEff sortProxEff hasSorts list
      { c with nodeList := some list,
               contextSize := (list.length : Int) }).contextSize
      = (((if hasSorts then sortFn list else list)).length : Int) := by
    rw [sortStageCtxt_contextSize]
    show (list.length : Int)
        = ((if hasSorts then sortFn list else list).length : Int)
    rw [hlen2]
  exact iterRunObservations body hbody _ _ _ hcs

/-- Claim C9: during the per-node iteration of `xsltApplyTemplates` and
`xsltForEach` over a selected list of length N, iteration j (0-based)
runs with `contextSize = N`, `node` the j-th list node and
`proximityPosition = j + 1 ∈ [1, N]` — given that `xsltSort` only
permutes the list in place (`sortFn` length-preserving) and that the
nested per-node processing restores `contextSize` (claim C2's
invariant). -/
theorem c9_iteration_context_invariant :
    (∀ (body : SrcNode → TransformCtxt → TransformCtxt) (hasSorts : Bool)
      (sortFn : List SrcNode → List SrcNode) (sortNodeEff : SrcNode → SrcNode)
      (sortProxEff : Int → Int) (stripSpaces : Option (String → Option String))
      (selectProp : Option String) (xpathCtxtOk parserOk : Bool)
      (evalRes : Option XPathObj) (node : SrcNode) (children : List SrcNode)
      (c : TransformCtxt),
      (∀ l, (sortFn l).length = l.length) →
      (∀ n c0, (body n c0).contextSize = c0.contextSize) →
      iterObservationsOk (xsltApplyTemplates body hasSorts sortFn sortNodeEff
        sortProxEff stripSpaces selectProp xpathCtxtOk parserOk evalRes node
        children c))
    ∧ (∀ (body : SrcNode → TransformCtxt → TransformCtxt) (hasSorts : Bool)
      (sortFn : List SrcNode → List SrcNode) (sortNodeEff : SrcNode → SrcNode)
      (sortProxEff : Int → Int) (selectProp : Option String)
      (xpathCtxtOk parserOk : Bool) (evalRes : Option XPathObj)
      (c : TransformCtxt),
      (∀ l, (sortFn l).length = l.length) →
      (∀ n c0, (body n c0).contextSize = c0.contextSize) →
      iterObservationsOk (xsltForEach body hasSorts sortFn sortNodeEff
        sortProxEff selectProp xpathCtxtOk parserOk evalRes c)) := by
  have hempty : ∀ r : InstrRun, r.observed = [] → r.iterList = [] →
      iterObservationsOk r := by
    intro r h1 h2
    constructor
    · rw [h1, h2]
      rfl
    · intro j hj
      rw [h2] at hj
      exact absurd hj (by simp)
  constructor
  · intro body hasSorts sortFn sortNodeEff sortProxEff stripSpaces selectProp
      xpathCtxtOk parserOk evalRes node children c hsort hbody
    rcases selectProp with _ | s
    · exact saveSortIterateRestore_observations _ _ _ _ _ hsort hbody _ _
    · cases xpathCtxtOk with
      | false => exact hempty _ rfl rfl
      | true =>
        cases parserOk with
        | false => exact hempty _ rfl rfl
        | true =>
          rcases evalRes with _ | o
          · exact hempty _ rfl rfl
          · rcases o with l | b | str | _
            · exact saveSortIterateRestore_observations _ _ _ _ _ hsort hbody
                _ _
            · exact hempty _ rfl rfl
            · exact hempty _ rfl rfl
            · exact hempty _ rfl rfl
  · intro body hasSorts sortFn sortNodeEff sortProxEff selectProp
      xpathCtxtOk parserOk evalRes c hsort hbody
    rcases selectProp with _ | s
    · exact hempty _ rfl rfl
    · cases xpathCtxtOk with
      | false => exact hempty _ rfl rfl
      | true =>
        cases parserOk with
        | false => exact hempty _ rfl rfl
        | true =>
          rcases evalRes with _ | o
          · exact hempty _ rfl rfl
          · rcases o with l | b | str | _
            · exact saveSortIterateRestore_observations _ _ _ _ _ hsort hbody
                _ _
            · exact hempty _ rfl rfl
            · exact hempty _ rfl rfl
            · exact hempty _ rfl rfl

/-- Witness for C9: the identity sort (length-preserving) and an identity
per-node processing (restores `contextSize`) at concrete runs of both
instructions. -/
theorem c9_witness :
    iterObservationsOk (xsltApplyTemplates (fun _ c => c) false id id id none
      none true true none ⟨NodeKind.element, "r", ""⟩
      [⟨NodeKind.text, "", "y"⟩] ⟨⟨NodeKind.element, "r", ""⟩, none, 0, 0⟩)
    ∧ iterObservationsOk (xsltForEach (fun _ c => c) false id id id
      (some "x") true true
      (some (XPathObj.nodeset [⟨NodeKind.text, "", "y"⟩]))
      ⟨⟨NodeKind.element, "r", ""⟩, none, 0, 0⟩) :=
  ⟨c9_iteration_context_invariant.1 (fun _ c => c) false id id id none none
      true true none ⟨NodeKind.element, "r", ""⟩ [⟨NodeKind.text, "", "y"⟩]
      ⟨⟨NodeKind.element, "r", ""⟩, none, 0, 0⟩ (fun _ => rfl)
      (fun _ _ => rfl),
    c9_iteration_context_invariant.2 (fun _ c => c) false id id id (some "x")
      true true (some (XPathObj.nodeset [⟨NodeKind.text, "", "y"⟩]))
      ⟨⟨NodeKind.element, "r", ""⟩, none, 0, 0⟩ (fun _ => rfl)
      (fun _ _ => rfl)⟩

/-! ## Claim C3 -/

/-- Invariant between entry and exit of the body walk: the walk does not
abort, `insert` is restored, the walk itself performs no pops, the
`has_variables` flag is monotone, and the push counter grows exactly with
the flag (at most one push, performed when the flag first flips). -/
def WalkInv (s s2 : WalkSt) : Prop :=
  s2.aborted = false ∧ s2.insert = s.insert ∧ s2.pops = s.pops ∧
  (s.hasVariables = true → s2.hasVariables = true) ∧
  s2.pushes + (if s.hasVariables then 1 else 0)
    = s.pushes + (if s2.hasVariables then 1 else 0)

/-- `WalkInv` holds reflexively on a non-aborted state. -/
theorem walkInv_refl (s : WalkSt) (h : s.aborted = false) : WalkInv s s :=
  ⟨h, rfl, rfl, fun hv => hv, rfl⟩

/-- `WalkInv` composes. -/
theorem walkInv_trans {s s1 s2 : WalkSt} (h1 : WalkInv s s1)
    (h2 : WalkInv s1 s2) : WalkInv s s2 := by
  obtain ⟨a1, i1, p1, v1, q1⟩ := h1
  obtain ⟨a2, i2, p2, v2, q2⟩ := h2
  refine ⟨a2, i2.trans i1, p2.trans p1, fun hv => v2 (v1 hv), ?_⟩
  cases hs : s.hasVariables <;> cases hs1 : s1.hasVariables <;>
    cases hs2 : s2.hasVariables <;>
    simp [hs, hs1, hs2] at q1 q2 v1 v2 ⊢ <;> omega

/-- Step equation of `walkNode` on an explicit node. -/
theorem walkNode_eq (k : SKind) (cs : List STree) (s : WalkSt) :
    walkNode (STree.node k cs) s =
      if s.aborted then s
      else if s.insert = 0 then { s with aborted := true }
      else
        match k with
        | SKind.xsltInstr nm =>
          if isScopeKind nm && !s.hasVariables then
            { s with hasVariables := true, pushes := s.pushes + 1 }
          else s
        | SKind.literalElem =>
          walkDescend cs { s with copyVar := some (s.insert + 1) }
        | SKind.textNode =>
          walkDescend cs { s with copyVar := some (s.insert + 1) }
        | SKind.entityDeclNode => walkDescend cs s
        | SKind.otherNode => walkDescend cs s := by
  rw [walkNode.eq_def]

/-- Step equation of `walkDescend`. -/
theorem walkDescend_eq (cs : List STree) (s : WalkSt) :
    walkDescend cs s =
      if descendGuard cs then
        let s2 := walkForest cs { s with insert := s.copyVar.getD s.insert }
        if s2.aborted then s2 else { s2 with insert := s2.insert - 1 }
      else s := by
  rw [walkDescend.eq_def]

/-- Step equation of `walkForest` on the empty list. -/
theorem walkForest_nil (s : WalkSt) : walkForest [] s = s := by
  rw [walkForest.eq_def]

/-- Step equation of `walkForest` on a cons. -/
theorem walkForest_cons (t : STree) (rest : List STree) (s : WalkSt) :
    walkForest (t :: rest) s = walkForest rest (walkNode t s) := by
  rw [walkForest.eq_def]

/-- Step equation of `wfTree`. -/
theorem wfTree_eq (k : SKind) (cs : List STree) :
    wfTree (STree.node k cs) =
      (match k with
      | SKind.xsltInstr _ => true
      | SKind.literalElem => wfForest cs
      | SKind.textNode => wfForest cs
      | SKind.entityDeclNode => !descendGuard cs
      | SKind.otherNode => !descendGuard cs) := by
  rw [wfTree.eq_def]

/-- Step equation of `wfForest` on a cons. -/
theorem wfForest_cons (t : STree) (rest : List STree) :
    wfForest (t :: rest) = (wfTree t && wfForest rest) := by
  rw [wfForest.eq_def]

mutual

/-- The walk step on one node preserves the invariant: for a well-formed
node with a live insertion point, the step never takes the early return
and restores `insert`. -/
theorem walkNode_inv (t : STree) (s : WalkSt) (hwf : wfTree t = true)
    (hab : s.aborted = false) (hins : 1 ≤ s.insert) :
    WalkInv s (walkNode t s) := by
  cases t with
  | node k cs =>
    rw [walkNode_eq, if_neg (by rw [hab]; simp),
      if_neg (show ¬s.insert = 0 by omega)]
    cases k with
    | xsltInstr nm =>
      show WalkInv s (if isScopeKind nm && !s.hasVariables then
        { s with hasVariables := true, pushes := s.pushes + 1 } else s)
      by_cases hc : (isScopeKind nm && !s.hasVariables) = true
      · have hsv : s.hasVariables = false := by
          cases hsw : s.hasVariables
          · rfl
          · rw [hsw] at hc
            simp at hc
        rw [if_pos hc]
        refine ⟨hab, rfl, rfl, fun _ => rfl, ?_⟩
        simp [hsv]
      · rw [if_neg hc]
        exact walkInv_refl s hab
    | literalElem =>
      show WalkInv s (walkDescend cs { s with copyVar := some (s.insert + 1) })
      rw [wfTree_eq] at hwf
      have hwfcs : wfForest cs = true := hwf
      exact walkDescend_inv cs { s with copyVar := some (s.insert + 1) }
        (fun _ => ⟨hwfcs, rfl⟩) hab hins
    | textNode =>
      show WalkInv s (walkDescend cs { s with copyVar := some (s.insert + 1) })
      rw [wfTree_eq] at hwf
      have hwfcs : wfForest cs = true := hwf
      exact walkDescend_inv cs { s with copyVar := some (s.insert + 1) }
        (fun _ => ⟨hwfcs, rfl⟩) hab hins
    | entityDeclNode =>
      show WalkInv s (walkDescend cs s)
      rw [wfTree_eq] at hwf
      have hng : descendGuard cs = false := by
        have h2 : (!descendGuard cs) = true := hwf
        simpa using h2
      exact walkDescend_inv cs s
        (fun hg => absurd hg (by rw [hng]; simp)) hab hins
    | otherNode =>
      show WalkInv s (walkDescend cs s)
      rw [wfTree_eq] at hwf
      have hng : descendGuard cs = false := by
        have h2 : (!descendGuard cs) = true := hwf
        simpa using h2
      exact walkDescend_inv cs s
        (fun hg => absurd hg (by rw [hng]; simp)) hab hins
termination_by (sizeOf t, 2)

/-- The descent-plus-unwind step preserves the invariant: when the guard
passes, the walk enters the children one level deeper (the fresh copy)
and the single `insert = insert->parent` of the unwind brings `insert`
back. -/
theorem walkDescend_inv (cs : List STree) (s : WalkSt)
    (h : descendGuard cs = true →
      wfForest cs = true ∧ s.copyVar = some (s.insert + 1))
    (hab : s.aborted = false) (hins : 1 ≤ s.insert) :
    WalkInv s (walkDescend cs s) := by
  by_cases hg : descendGuard cs = true
  · obtain ⟨hwf, hcopy⟩ := h hg
    have hInStart : ({ s with insert := s.copyVar.getD s.insert } :
        WalkSt).insert = s.insert + 1 := by
      show s.copyVar.getD s.insert = s.insert + 1
      rw [hcopy]
      rfl
    obtain ⟨a2, i2, p2, v2, q2⟩ := walkForest_inv cs
      { s with insert := s.copyVar.getD s.insert } hwf hab
      (by rw [hInStart]; omega)
    rw [walkDescend_eq, if_pos hg]
    show WalkInv s
      (if (walkForest cs { s with insert := s.copyVar.getD s.insert }).aborted
        then walkForest cs { s with insert := s.copyVar.getD s.insert }
        else { walkForest cs { s with insert := s.copyVar.getD s.insert } with
          insert := (walkForest cs
            { s with insert := s.copyVar.getD s.insert }).insert - 1 })
    rw [if_neg (by rw [a2]; simp)]
    refine ⟨a2, ?_, p2, v2, q2⟩
    show (walkForest cs { s with insert := s.copyVar.getD s.insert }).insert
        - 1 = s.insert
    rw [i2, hInStart]
    omega
  · rw [walkDescend_eq, if_neg hg]
    exact walkInv_refl s hab
termination_by (sizeOf cs, 1)

/-- The walk over a sibling list preserves the invariant. -/
theorem walkForest_inv (l : List STree) (s : WalkSt)
    (hwf : wfForest l = true) (hab : s.aborted = false)
    (hins : 1 ≤ s.insert) : WalkInv s (walkForest l s) := by
  cases l with
  | nil =>
    rw [walkForest_nil]
    exact walkInv_refl s hab
  | cons t rest =>
    rw [wfForest_cons] at hwf
    have hsplit : wfTree t = true ∧ wfForest rest = true := by
      simpa using hwf
    have h1 := walkNode_inv t s hsplit.1 hab hins
    have h2 := walkForest_inv rest (walkNode t s) hsplit.2 h1.1
      (by rw [h1.2.1]; exact hins)
    rw [walkForest_cons]
    exact walkInv_trans h1 h2
termination_by (sizeOf l, 0)

end

/-- Once the early return has fired, the rest of the walk does nothing. -/
theorem walkForest_aborted (l : List STree) (s : WalkSt)
    (h : s.aborted = true) : walkForest l s = s := by
  induction l with
  | nil => exact walkForest_nil s
  | cons t rest ih =>
    have hn : walkNode t s = s := by
      cases t with
      | node k cs => rw [walkNode_eq, if_pos h]
    rw [walkForest_cons, hn, ih]

/-- The pop discipline of the wrapper, given the walk invariant facts
about the final walk state. -/
theorem applyOneTemplate_balance (list : List STree) (insert0 : Nat)
    (s1 : WalkSt)
    (heq : walkForest list
      { insert := insert0, copyVar := none, hasVariables := false,
        pushes := 0, pops := 0, aborted := false } = s1)
    (ha : s1.aborted = false) (hp : s1.pops = 0)
    (hq : s1.pushes + 0 = 0 + (if s1.hasVariables then 1 else 0)) :
    (xsltApplyOneTemplate list insert0).pushes ≤ 1 ∧
    (xsltApplyOneTemplate list insert0).pops
      = (xsltApplyOneTemplate list insert0).pushes := by
  have hres : xsltApplyOneTemplate list insert0
      = if s1.hasVariables then { s1 with pops := s1.pops + 1 } else s1 := by
    unfold xsltApplyOneTemplate
    rw [heq, if_neg (by rw [ha]; simp)]
  rw [hres]
  clear hres
  cases hv : s1.hasVariables
  · simp only [hv, Bool.false_eq_true, if_false]
    simp [hv] at hq
    exact ⟨by omega, by omega⟩
  · simp only [hv, if_true]
    simp [hv] at hq
    refine ⟨?_, ?_⟩
    · show ({ s1 with pops := s1.pops + 1 }).pushes ≤ 1
      simp [hq]
    · show ({ s1 with pops := s1.pops + 1 }).pops
          = ({ s1 with pops := s1.pops + 1 }).pushes
      simp [hq, hp]

/-- Claim C3: for every execution of a template body by
`xsltApplyOneTemplate` on a well-formed stylesheet body, if the lazy
variable-scope push happened during the body then exactly one matching
pop runs before the walk returns, on every exit path — in particular the
early return taken when the insertion point is NULL can only fire before
any push (with a live insertion point the walk keeps `insert` non-NULL
throughout), so it never skips a needed pop. -/
theorem c3_scope_push_pop_balanced :
    ∀ (list : List STree) (insert0 : Nat), wfForest list = true →
      (xsltApplyOneTemplate list insert0).pushes ≤ 1 ∧
      (xsltApplyOneTemplate list insert0).pops
        = (xsltApplyOneTemplate list insert0).pushes := by
  intro list insert0 hwf
  by_cases hz : insert0 = 0
  · subst hz
    cases list with
    | nil =>
      have h0 : xsltApplyOneTemplate [] 0
          = { insert := 0, copyVar := none, hasVariables := false,
              pushes := 0, pops := 0, aborted := false } := by
        unfold xsltApplyOneTemplate
        rw [walkForest_nil]
        rfl
      rw [h0]
      exact ⟨Nat.zero_le 1, rfl⟩
    | cons t rest =>
      have hstep : walkNode t
          { insert := 0, copyVar := none, hasVariables := false,
            pushes := 0, pops := 0, aborted := false }
          = { insert := 0, copyVar := none, hasVariables := false,
              pushes := 0, pops := 0, aborted := true } := by
        cases t with
        | node k cs => rw [walkNode_eq, if_neg (by simp), if_pos rfl]
      have h0 : xsltApplyOneTemplate (t :: rest) 0
          = { insert := 0, copyVar := none, hasVariables := false,
              pushes := 0, pops := 0, aborted := true } := by
        unfold xsltApplyOneTemplate
        rw [walkForest_cons, hstep, walkForest_aborted _ _ rfl]
        rfl
      rw [h0]
      exact ⟨Nat.zero_le 1, rfl⟩
  · have hins : 1 ≤ insert0 := by omega
    obtain ⟨a2, i2, p2, v2, q2⟩ := walkForest_inv list
      { insert := insert0, copyVar := none, hasVariables := false,
        pushes := 0, pops := 0, aborted := false } hwf rfl hins
    exact applyOneTemplate_balance list insert0 _ rfl a2 p2 q2

/-- Witness for C3: a concrete well-formed body — an `xsl:variable` child
(triggering the lazy push), a literal element with a text child, and a
trailing text node — walked from insertion depth 1. -/
theorem c3_witness :
    wfForest [STree.node (SKind.xsltInstr "variable") [],
      STree.node SKind.literalElem [STree.node SKind.textNode []],
      STree.node SKind.textNode []] = true ∧
    ((xsltApplyOneTemplate [STree.node (SKind.xsltInstr "variable") [],
        STree.node SKind.literalElem [STree.node SKind.textNode []],
        STree.node SKind.textNode []] 1).pushes ≤ 1 ∧
      (xsltApplyOneTemplate [STree.node (SKind.xsltInstr "variable") [],
        STree.node SKind.literalElem [STree.node SKind.textNode []],
        STree.node SKind.textNode []] 1).pops
        = (xsltApplyOneTemplate [STree.node (SKind.xsltInstr "variable") [],
          STree.node SKind.literalElem [STree.node SKind.textNode []],
          STree.node SKind.textNode []] 1).pushes) :=
  ⟨by simp [wfForest_cons, wfForest.eq_def, wfTree_eq, descendGuard],
    c3_scope_push_pop_balanced _ 1
      (by simp [wfForest_cons, wfForest.eq_def, wfTree_eq, descendGuard])⟩

end LibXslt
